import Mathlib

/-!
Shallow embedding of four InvokeAI web front-end modules:

* `SettingsLogLevelSelect` (log-level combobox change handler),
* `CanvasEntityOpacity` (opacity slider / number-input handlers),
* `CanvasAddEntityButtons` (five add-entity click handlers),
* `addEnqueueRequestedNodes` (listener-middleware effect that serializes
  editor state into a queue batch request).

Each React event handler is embedded as a pure function from its read
dependencies (store selections, local component state, the event value) to
the list of store actions or API requests it dispatches, together with any
update of local component state.  JavaScript numbers that carry opacity
values are modelled as rationals; a possibly-NaN number is modelled as an
`Option ℚ` with `none` standing for NaN.
-/

/-- A combobox option as the log-level select change handler receives it:
a label and a string value. -/
structure ComboOption where
  label : String
  value : String
  deriving DecidableEq

/-- Actions of the system slice dispatched by `SettingsLogLevelSelect`. -/
inductive SystemAction where
  | logLevelChanged (level : String)
  deriving DecidableEq

/-- The `onChange` callback of `SettingsLogLevelSelect`: if `isLogLevel`
rejects the (possibly missing) value it returns without dispatching,
otherwise it dispatches `logLevelChanged` with the value.  The validator
`isLogLevel` comes from `app/logging/logger`, an external collaborator of
this component, so it is a parameter of the embedding. -/
def SettingsLogLevelSelect.onChange (isLogLevel : Option String → Bool)
    (v : Option ComboOption) : List SystemAction :=
  if isLogLevel (v.map ComboOption.value) then
    match v with
    | some vv => [SystemAction.logLevelChanged vv.value]
    | none => []
  else
    []

/-- A canvas entity identifier: an id together with the entity type tag. -/
structure EntityIdentifier where
  id : String
  type : String
  deriving DecidableEq

/-- The default control-adapter configuration supplied by the external hook
`useDefaultControlAdapter`; its contents are opaque to the components. -/
structure ControlAdapterConfig where
  model : String
  deriving DecidableEq

/-- The default IP-adapter configuration supplied by the external hook
`useDefaultIPAdapter`; its contents are opaque to the components. -/
structure IPAdapterConfig where
  model : String
  deriving DecidableEq

/-- Actions of the canvasV2 slice dispatched by `CanvasAddEntityButtons`
and `CanvasEntityOpacity`. -/
inductive CanvasV2Action where
  | inpaintMaskAdded
  | rgAdded
  | rasterLayerAdded (isSelected : Bool)
  | controlLayerAdded (isSelected : Bool) (controlAdapter : ControlAdapterConfig)
  | ipaAdded (ipAdapter : IPAdapterConfig)
  | entityOpacityChanged (entityIdentifier : EntityIdentifier) (opacity : ℚ)
  deriving DecidableEq

/-- Click handler of the inpaint-mask button. -/
def CanvasAddEntityButtons.addInpaintMask : List CanvasV2Action :=
  [CanvasV2Action.inpaintMaskAdded]

/-- Click handler of the regional-guidance button. -/
def CanvasAddEntityButtons.addRegionalGuidance : List CanvasV2Action :=
  [CanvasV2Action.rgAdded]

/-- Click handler of the raster-layer button. -/
def CanvasAddEntityButtons.addRasterLayer : List CanvasV2Action :=
  [CanvasV2Action.rasterLayerAdded true]

/-- Click handler of the control-layer button. -/
def CanvasAddEntityButtons.addControlLayer
    (defaultControlAdapter : ControlAdapterConfig) : List CanvasV2Action :=
  [CanvasV2Action.controlLayerAdded true defaultControlAdapter]

/-- Click handler of the IP-adapter button. -/
def CanvasAddEntityButtons.addIPAdapter
    (defaultIPAdapter : IPAdapterConfig) : List CanvasV2Action :=
  [CanvasV2Action.ipaAdded defaultIPAdapter]

/-- Slider value to opacity, from `CanvasEntityOpacity`. -/
def mapSliderValueToOpacity (value : ℚ) : ℚ :=
  value / 100

/-- Opacity to slider value, from `CanvasEntityOpacity`. -/
def mapOpacityToSliderValue (opacity : ℚ) : ℚ :=
  opacity * 100

/-- The slider marks of `CanvasEntityOpacity`. -/
def marks : List ℚ :=
  [mapOpacityToSliderValue 0, mapOpacityToSliderValue 0.25, mapOpacityToSliderValue 0.5,
    mapOpacityToSliderValue 0.75, mapOpacityToSliderValue 1]

/-- The snap candidates: `marks.slice(1, marks.length - 1)`. -/
def snapCandidates : List ℚ :=
  (marks.drop 1).take (marks.length - 1 - 1)

/-- One loop iteration of `snapToNearest`: keep the candidate when it is
closer than the best so far and within the threshold.  The accumulator
pairs the closest value so far with the smallest distance so far, `none`
standing for the initial `Number.MAX_VALUE`. -/
def snapStep (value threshold : ℚ) (acc : ℚ × Option ℚ) (candidate : ℚ) : ℚ × Option ℚ :=
  let diff := |value - candidate|
  match acc.2 with
  | none => if diff ≤ threshold then (candidate, some diff) else acc
  | some minDiff => if diff < minDiff ∧ diff ≤ threshold then (candidate, some diff) else acc

/-- Modelled from the spec: `snapToNearest` from
`features/controlLayers/konva/util` is not under the excerpt; the spec
describes the slider as snapping values to nearby marks.  It returns the
candidate value nearest to `value` among those within `threshold` of it,
and `value` itself when no candidate is that near. -/
def snapToNearest (value : ℚ) (candidateValues : List ℚ) (threshold : ℚ) : ℚ :=
  (candidateValues.foldl (snapStep value threshold) (value, none)).1

/-- The lodash `clamp`: restrict `value` to the interval from `lower` to
`upper`. -/
def clamp (value lower upper : ℚ) : ℚ :=
  min (max value lower) upper

/-- The `onChangeSlider` callback of `CanvasEntityOpacity`: with no entity
selected it returns early; otherwise it snaps the slider value (unless
shift is held), maps it to an opacity and dispatches
`entityOpacityChanged`. -/
def CanvasEntityOpacity.onChangeSlider (selectedEntityIdentifier : Option EntityIdentifier)
    (shiftHeld : Bool) (opacity : ℚ) : List CanvasV2Action :=
  match selectedEntityIdentifier with
  | none => []
  | some ident =>
    let snappedOpacity := if shiftHeld then opacity else snapToNearest opacity snapCandidates 2
    let mappedOpacity := mapSliderValueToOpacity snappedOpacity
    [CanvasV2Action.entityOpacityChanged ident mappedOpacity]

/-- The `onBlur` callback of `CanvasEntityOpacity`: with no entity selected
it returns early; with a NaN local value it resets the local value to 100
and dispatches nothing; otherwise it dispatches `entityOpacityChanged` with
the local value divided by 100 and clamped to the unit interval.  The
result pairs the new local value with the dispatched actions. -/
def CanvasEntityOpacity.onBlur (selectedEntityIdentifier : Option EntityIdentifier)
    (localOpacity : Option ℚ) : Option ℚ × List CanvasV2Action :=
  match selectedEntityIdentifier with
  | none => (localOpacity, [])
  | some ident =>
    match localOpacity with
    | none => (some 100, [])
    | some v =>
      (some v, [CanvasV2Action.entityOpacityChanged ident (clamp (v / 100) 0 1)])

/-- The `onKeyDown` callback of `CanvasEntityOpacity`: the Enter key runs
the blur logic, every other key does nothing. -/
def CanvasEntityOpacity.onKeyDown (key : String)
    (selectedEntityIdentifier : Option EntityIdentifier)
    (localOpacity : Option ℚ) : Option ℚ × List CanvasV2Action :=
  if key == "Enter" then
    CanvasEntityOpacity.onBlur selectedEntityIdentifier localOpacity
  else
    (localOpacity, [])

/-- The payload of an `enqueueRequested` action. -/
structure EnqueueRequestedPayload where
  tabName : String
  prepend : Bool
  deriving DecidableEq

/-- An action as seen by the listener middleware: either an
`enqueueRequested` action or any other action, identified by its type
string. -/
inductive AppAction where
  | enqueueRequested (payload : EnqueueRequestedPayload)
  | other (actionType : String)
  deriving DecidableEq

/-- The slice of store state the enqueue listener reads: the nodes slice
(opaque to the listener, of type `N`) and `state.generation.iterations`. -/
structure AppState (N : Type) where
  nodes : N
  generationIterations : Nat

/-- The batch of a `BatchConfig`, over opaque graph and workflow types. -/
structure Batch (G W : Type) where
  graph : G
  workflow : W
  runs : Nat
  deriving DecidableEq

/-- The `BatchConfig` the listener builds for `enqueueBatch`. -/
structure BatchConfig (G W : Type) where
  batch : Batch G W
  prepend : Bool
  deriving DecidableEq

/-- The observable steps the enqueue listener effect can take against the
queue API: initiating an `enqueueBatch` request, and calling `reset`,
`retry` or `abort` on a request handle identified by its fixed cache
key. -/
inductive QueueStep (G W : Type) where
  | initiateEnqueueBatch (config : BatchConfig G W) (fixedCacheKey : String)
  | requestHandleReset (fixedCacheKey : String)
  | requestRetried (fixedCacheKey : String)
  | requestAborted (fixedCacheKey : String)
  deriving DecidableEq

/-- Recognizer for `initiateEnqueueBatch` steps. -/
def QueueStep.isInitiateEnqueueBatch {G W : Type} : QueueStep G W → Bool
  | QueueStep.initiateEnqueueBatch _ _ => true
  | _ => false

/-- Recognizer for `requestHandleReset` steps. -/
def QueueStep.isRequestHandleReset {G W : Type} : QueueStep G W → Bool
  | QueueStep.requestHandleReset _ => true
  | _ => false

/-- Recognizer for `requestRetried` steps. -/
def QueueStep.isRequestRetried {G W : Type} : QueueStep G W → Bool
  | QueueStep.requestRetried _ => true
  | _ => false

/-- Recognizer for `requestAborted` steps. -/
def QueueStep.isRequestAborted {G W : Type} : QueueStep G W → Bool
  | QueueStep.requestAborted _ => true
  | _ => false

/-- The predicate of `addEnqueueRequestedNodes`: the action matches
`enqueueRequested` and its payload's tab name is "nodes". -/
def enqueueRequestedNodesPredicate : AppAction → Bool
  | AppAction.enqueueRequested p => p.tabName == "nodes"
  | AppAction.other _ => false

/-- The effect body of `addEnqueueRequestedNodes`: build the graph and the
workflow from the nodes slice of the state read at the start of the effect,
assemble the batch config with `runs` from `generation.iterations` and
`prepend` from the action payload, initiate the `enqueueBatch` request with
fixed cache key "enqueueBatch", then reset the returned request handle.
`buildNodesGraph` and `buildWorkflow` are external collaborators, so they
are parameters of the embedding. -/
def enqueueRequestedNodesEffect {N G W : Type} (buildNodesGraph : N → G)
    (buildWorkflow : N → W) (state : AppState N)
    (payload : EnqueueRequestedPayload) : List (QueueStep G W) :=
  let graph := buildNodesGraph state.nodes
  let workflow := buildWorkflow state.nodes
  let batchConfig : BatchConfig G W :=
    ⟨⟨graph, workflow, state.generationIterations⟩, payload.prepend⟩
  [QueueStep.initiateEnqueueBatch batchConfig "enqueueBatch",
    QueueStep.requestHandleReset "enqueueBatch"]

/-- The whole listener registered by `addEnqueueRequestedNodes`: the effect
runs exactly when the predicate holds of the action. -/
def enqueueRequestedNodesListener {N G W : Type} (buildNodesGraph : N → G)
    (buildWorkflow : N → W) (state : AppState N)
    (action : AppAction) : List (QueueStep G W) :=
  if enqueueRequestedNodesPredicate action then
    match action with
    | AppAction.enqueueRequested p =>
        enqueueRequestedNodesEffect buildNodesGraph buildWorkflow state p
    | AppAction.other _ => []
  else
    []

/-- An action carries an opacity only through `entityOpacityChanged`, and
then that opacity lies in the closed unit interval. -/
def opacityInUnit : CanvasV2Action → Prop
  | CanvasV2Action.entityOpacityChanged _ o => 0 ≤ o ∧ o ≤ 1
  | _ => True

/-- Recognizer for the five add-entity actions (everything the add buttons
may dispatch, as opposed to opacity changes). -/
def isAddEntityAction : CanvasV2Action → Bool
  | CanvasV2Action.inpaintMaskAdded => true
  | CanvasV2Action.rgAdded => true
  | CanvasV2Action.rasterLayerAdded _ => true
  | CanvasV2Action.controlLayerAdded _ _ => true
  | CanvasV2Action.ipaAdded _ => true
  | CanvasV2Action.entityOpacityChanged _ _ => false

/-- The snap candidates are the three interior marks. -/
theorem snapCandidates_eq : snapCandidates = [25, 50, 75] := by
  norm_num [snapCandidates, marks, mapOpacityToSliderValue]

/-- Claim C1: when the listener effect runs for an `enqueueRequested`
action with tab name "nodes", it dispatches an `enqueueBatch` request
whose batch serializes the editor state read at the start of the effect:
graph and workflow built from the nodes slice, runs from
`generation.iterations`, and prepend from the action payload (and then
resets the request handle). -/
theorem enqueue_requested_nodes_serializes_state {N G W : Type}
    (buildNodesGraph : N → G) (buildWorkflow : N → W) (state : AppState N)
    (p : EnqueueRequestedPayload) (h : p.tabName = "nodes") :
    enqueueRequestedNodesListener buildNodesGraph buildWorkflow state
        (AppAction.enqueueRequested p) =
      [QueueStep.initiateEnqueueBatch
          ⟨⟨buildNodesGraph state.nodes, buildWorkflow state.nodes,
              state.generationIterations⟩, p.prepend⟩
          "enqueueBatch",
        QueueStep.requestHandleReset "enqueueBatch"] := by
  simp [enqueueRequestedNodesListener, enqueueRequestedNodesPredicate, h,
    enqueueRequestedNodesEffect]

/-- Witness for C1 at a concrete state and payload. -/
theorem enqueue_requested_nodes_serializes_state_witness :
    enqueueRequestedNodesListener (fun n => n + 1) (fun n => n * 2)
        (⟨5, 3⟩ : AppState Nat) (AppAction.enqueueRequested ⟨"nodes", true⟩) =
      [QueueStep.initiateEnqueueBatch ⟨⟨6, 10, 3⟩, true⟩ "enqueueBatch",
        QueueStep.requestHandleReset "enqueueBatch"] :=
  enqueue_requested_nodes_serializes_state (fun n => n + 1) (fun n => n * 2)
    (⟨5, 3⟩ : AppState Nat) ⟨"nodes", true⟩ rfl

/-- Claim C4: for each matching action the effect initiates exactly one
`enqueueBatch` request, performs no retry and no abort, and its only
follow-up on the request handle is a single reset. -/
theorem enqueue_requested_nodes_single_dispatch {N G W : Type}
    (buildNodesGraph : N → G) (buildWorkflow : N → W) (state : AppState N)
    (action : AppAction) (h : enqueueRequestedNodesPredicate action = true) :
    ((enqueueRequestedNodesListener buildNodesGraph buildWorkflow state action).countP
        QueueStep.isInitiateEnqueueBatch = 1) ∧
    ((enqueueRequestedNodesListener buildNodesGraph buildWorkflow state action).countP
        QueueStep.isRequestRetried = 0) ∧
    ((enqueueRequestedNodesListener buildNodesGraph buildWorkflow state action).countP
        QueueStep.isRequestAborted = 0) ∧
    ((enqueueRequestedNodesListener buildNodesGraph buildWorkflow state action).countP
        QueueStep.isRequestHandleReset = 1) := by
  cases action with
  | enqueueRequested p =>
      refine ⟨?_, ?_, ?_, ?_⟩ <;>
        simp [enqueueRequestedNodesListener, h, enqueueRequestedNodesEffect,
          List.countP_cons, QueueStep.isInitiateEnqueueBatch,
          QueueStep.isRequestRetried, QueueStep.isRequestAborted,
          QueueStep.isRequestHandleReset]
  | other t =>
      simp [enqueueRequestedNodesPredicate] at h

/-- Witness for C4 at a concrete matching action. -/
theorem enqueue_requested_nodes_single_dispatch_witness :
    ((enqueueRequestedNodesListener (fun n => n) (fun n => n)
        (⟨0, 1⟩ : AppState Nat) (AppAction.enqueueRequested ⟨"nodes", false⟩)).countP
        QueueStep.isInitiateEnqueueBatch = 1) ∧
    ((enqueueRequestedNodesListener (fun n => n) (fun n => n)
        (⟨0, 1⟩ : AppState Nat) (AppAction.enqueueRequested ⟨"nodes", false⟩)).countP
        QueueStep.isRequestRetried = 0) ∧
    ((enqueueRequestedNodesListener (fun n => n) (fun n => n)
        (⟨0, 1⟩ : AppState Nat) (AppAction.enqueueRequested ⟨"nodes", false⟩)).countP
        QueueStep.isRequestAborted = 0) ∧
    ((enqueueRequestedNodesListener (fun n => n) (fun n => n)
        (⟨0, 1⟩ : AppState Nat) (AppAction.enqueueRequested ⟨"nodes", false⟩)).countP
        QueueStep.isRequestHandleReset = 1) :=
  enqueue_requested_nodes_single_dispatch (fun n => n) (fun n => n)
    (⟨0, 1⟩ : AppState Nat) (AppAction.enqueueRequested ⟨"nodes", false⟩) (by decide)

/-- Claim C9: the listener's effect runs only for actions matching
`enqueueRequested` with tab name "nodes"; every other action yields no
queue step at all, and the predicate holds exactly of those matching
actions. -/
theorem enqueue_requested_nodes_only_for_nodes_tab {N G W : Type}
    (buildNodesGraph : N → G) (buildWorkflow : N → W) (state : AppState N)
    (action : AppAction) :
    (enqueueRequestedNodesPredicate action = false →
      enqueueRequestedNodesListener buildNodesGraph buildWorkflow state action = []) ∧
    (enqueueRequestedNodesPredicate action = true ↔
      ∃ p, action = AppAction.enqueueRequested p ∧ p.tabName = "nodes") := by
  constructor
  · intro h
    simp [enqueueRequestedNodesListener, h]
  · cases action with
    | enqueueRequested p =>
        simp [enqueueRequestedNodesPredicate]
    | other t =>
        simp [enqueueRequestedNodesPredicate]

/-- Witness for C9: a non-matching action (wrong tab, and a foreign action)
produces no queue step. -/
theorem enqueue_requested_nodes_only_for_nodes_tab_witness :
    enqueueRequestedNodesListener (fun n : Nat => n) (fun n : Nat => n)
        (⟨0, 0⟩ : AppState Nat) (AppAction.enqueueRequested ⟨"canvas", false⟩) =
      ([] : List (QueueStep Nat Nat)) ∧
    enqueueRequestedNodesListener (fun n : Nat => n) (fun n : Nat => n)
        (⟨0, 0⟩ : AppState Nat) (AppAction.other "imagesLoaded") =
      ([] : List (QueueStep Nat Nat)) :=
  ⟨(enqueue_requested_nodes_only_for_nodes_tab (fun n : Nat => n) (fun n : Nat => n)
      (⟨0, 0⟩ : AppState Nat) (AppAction.enqueueRequested ⟨"canvas", false⟩)).1 (by decide),
    (enqueue_requested_nodes_only_for_nodes_tab (fun n : Nat => n) (fun n : Nat => n)
      (⟨0, 0⟩ : AppState Nat) (AppAction.other "imagesLoaded")).1 (by decide)⟩

/-- Claim C2: the log-level change handler dispatches `logLevelChanged`
with the value exactly when `isLogLevel` accepts it; every other value,
including a missing one, produces no dispatch.  `isLogLevel` is the
external validator, assumed (as the claim states) to reject a missing
value. -/
theorem log_level_dispatch_iff_valid (isLogLevel : Option String → Bool)
    (hnone : isLogLevel none = false) (vv : ComboOption) :
    (isLogLevel (some vv.value) = true →
      SettingsLogLevelSelect.onChange isLogLevel (some vv) =
        [SystemAction.logLevelChanged vv.value]) ∧
    (isLogLevel (some vv.value) = false →
      SettingsLogLevelSelect.onChange isLogLevel (some vv) = []) ∧
    SettingsLogLevelSelect.onChange isLogLevel none = [] := by
  refine ⟨fun h => ?_, fun h => ?_, ?_⟩
  · simp [SettingsLogLevelSelect.onChange, h]
  · simp [SettingsLogLevelSelect.onChange, h]
  · simp [SettingsLogLevelSelect.onChange, hnone]

/-- Witness for C2 with a concrete validator: a valid value dispatches,
an invalid value and a missing value do not. -/
theorem log_level_dispatch_iff_valid_witness :
    SettingsLogLevelSelect.onChange (fun v => v == some "info") (some ⟨"info", "info"⟩) =
      [SystemAction.logLevelChanged "info"] ∧
    SettingsLogLevelSelect.onChange (fun v => v == some "info") (some ⟨"bogus", "bogus"⟩) = [] ∧
    SettingsLogLevelSelect.onChange (fun v => v == some "info") none = [] :=
  ⟨(log_level_dispatch_iff_valid (fun v => v == some "info") (by decide)
      ⟨"info", "info"⟩).1 (by decide),
    (log_level_dispatch_iff_valid (fun v => v == some "info") (by decide)
      ⟨"bogus", "bogus"⟩).2.1 (by decide),
    (log_level_dispatch_iff_valid (fun v => v == some "info") (by decide)
      ⟨"info", "info"⟩).2.2⟩

/-- Claim C3 counterexample: with no entity selected and a non-numeric
(NaN) local value, blur returns early, so the local value stays NaN rather
than being reset to the default 100 — the reset the claim states
unconditionally happens only when an entity is selected. -/
theorem blur_nan_no_entity_not_reset :
    (CanvasEntityOpacity.onBlur none none).1 = none ∧
    (CanvasEntityOpacity.onBlur none none).1 ≠ some 100 := by
  constructor
  · rfl
  · simp [CanvasEntityOpacity.onBlur]

/-- Claim C3 (amended): when an entity is selected, blur with a
non-numeric (NaN) local value resets the local value to 100 and dispatches
nothing, while blur with a numeric local value keeps it and dispatches
`entityOpacityChanged` with the value divided by 100 and clamped to the
unit interval; the Enter key runs the same blur logic. -/
theorem blur_resets_nan_and_dispatches_clamped (ident : EntityIdentifier)
    (localOpacity : Option ℚ) :
    CanvasEntityOpacity.onBlur (some ident) none = (some 100, []) ∧
    (∀ v : ℚ, CanvasEntityOpacity.onBlur (some ident) (some v) =
      (some v, [CanvasV2Action.entityOpacityChanged ident (clamp (v / 100) 0 1)])) ∧
    CanvasEntityOpacity.onKeyDown "Enter" (some ident) localOpacity =
      CanvasEntityOpacity.onBlur (some ident) localOpacity := by
  refine ⟨rfl, fun v => rfl, ?_⟩
  simp [CanvasEntityOpacity.onKeyDown]

/-- Claim C5: each of the five add-entity click handlers dispatches
exactly its one corresponding action, with the payloads the source
writes. -/
theorem add_entity_buttons_dispatch_one_action
    (defaultControlAdapter : ControlAdapterConfig)
    (defaultIPAdapter : IPAdapterConfig) :
    CanvasAddEntityButtons.addInpaintMask = [CanvasV2Action.inpaintMaskAdded] ∧
    CanvasAddEntityButtons.addRegionalGuidance = [CanvasV2Action.rgAdded] ∧
    CanvasAddEntityButtons.addRasterLayer = [CanvasV2Action.rasterLayerAdded true] ∧
    CanvasAddEntityButtons.addControlLayer defaultControlAdapter =
      [CanvasV2Action.controlLayerAdded true defaultControlAdapter] ∧
    CanvasAddEntityButtons.addIPAdapter defaultIPAdapter =
      [CanvasV2Action.ipaAdded defaultIPAdapter] :=
  ⟨rfl, rfl, rfl, rfl, rfl⟩

/-- Claim C8: with no entity selected, the slider change handler, the blur
handler and an Enter keydown all return early: no action is dispatched and
the local value is unchanged. -/
theorem no_entity_selected_no_dispatch (shiftHeld : Bool) (opacity : ℚ)
    (localOpacity : Option ℚ) :
    CanvasEntityOpacity.onChangeSlider none shiftHeld opacity = [] ∧
    CanvasEntityOpacity.onBlur none localOpacity = (localOpacity, []) ∧
    CanvasEntityOpacity.onKeyDown "Enter" none localOpacity = (localOpacity, []) := by
  refine ⟨rfl, rfl, ?_⟩
  simp [CanvasEntityOpacity.onKeyDown, CanvasEntityOpacity.onBlur]

/-- One snap iteration leaves the closest value either as it was or equal
to the candidate just examined. -/
theorem snapStep_fst_cases (value threshold : ℚ) (acc : ℚ × Option ℚ) (candidate : ℚ) :
    (snapStep value threshold acc candidate).1 = acc.1 ∨
      (snapStep value threshold acc candidate).1 = candidate := by
  rcases acc with ⟨a, d⟩
  cases d <;> simp only [snapStep] <;> split <;> simp

/-- The snap fold returns either the initial closest value or one of the
candidates in the list. -/
theorem snapFold_fst_mem (value threshold : ℚ) (l : List ℚ) (acc : ℚ × Option ℚ) :
    (l.foldl (snapStep value threshold) acc).1 = acc.1 ∨
      (l.foldl (snapStep value threshold) acc).1 ∈ l := by
  induction l generalizing acc with
  | nil => exact Or.inl rfl
  | cons c t ih =>
    rw [List.foldl_cons]
    rcases ih (snapStep value threshold acc c) with h | h
    · rcases snapStep_fst_cases value threshold acc c with h2 | h2
      · exact Or.inl (h.trans h2)
      · exact Or.inr (by rw [h, h2]; exact List.mem_cons_self c t)
    · exact Or.inr (List.mem_cons_of_mem c h)

/-- `snapToNearest` returns the input value or one of the candidates. -/
theorem snapToNearest_eq_or_mem (value threshold : ℚ) (l : List ℚ) :
    snapToNearest value l threshold = value ∨ snapToNearest value l threshold ∈ l :=
  snapFold_fst_mem value threshold l (value, none)

/-- Claim C7: every `entityOpacityChanged` action the opacity component
dispatches carries an opacity in the closed unit interval: the slider path
divides a snapped value of the slider range 0..100 by 100, and the blur
path clamps the divided local value to the unit interval. -/
theorem dispatched_opacity_in_unit_interval (ident : EntityIdentifier)
    (shiftHeld : Bool) (opacity : ℚ) (h0 : 0 ≤ opacity) (h100 : opacity ≤ 100)
    (v : ℚ) :
    (∀ a ∈ CanvasEntityOpacity.onChangeSlider (some ident) shiftHeld opacity,
      opacityInUnit a) ∧
    (∀ a ∈ (CanvasEntityOpacity.onBlur (some ident) (some v)).2, opacityInUnit a) := by
  constructor
  · intro a ha
    simp only [CanvasEntityOpacity.onChangeSlider, List.mem_singleton] at ha
    subst ha
    set s := if shiftHeld then opacity else snapToNearest opacity snapCandidates 2 with hs
    have hrange : 0 ≤ s ∧ s ≤ 100 := by
      rw [hs]
      split
      · exact ⟨h0, h100⟩
      · rw [snapCandidates_eq]
        rcases snapToNearest_eq_or_mem opacity 2 [25, 50, 75] with h | h
        · rw [h]; exact ⟨h0, h100⟩
        · simp only [List.mem_cons, List.not_mem_nil, or_false] at h
          rcases h with h | h | h <;> rw [h] <;> norm_num
    show 0 ≤ mapSliderValueToOpacity s ∧ mapSliderValueToOpacity s ≤ 1
    unfold mapSliderValueToOpacity
    constructor
    · exact div_nonneg hrange.1 (by norm_num)
    · rw [div_le_one (by norm_num)]
      exact hrange.2.trans (by norm_num)
  · intro a ha
    simp only [CanvasEntityOpacity.onBlur, List.mem_singleton] at ha
    subst ha
    show 0 ≤ clamp (v / 100) 0 1 ∧ clamp (v / 100) 0 1 ≤ 1
    unfold clamp
    exact ⟨le_min (le_max_right _ _) zero_le_one, min_le_right _ _⟩

/-- Witness for C7 at a concrete entity, slider value and local value. -/
theorem dispatched_opacity_in_unit_interval_witness :
    (∀ a ∈ CanvasEntityOpacity.onChangeSlider (some ⟨"e1", "raster_layer"⟩) false 26,
      opacityInUnit a) ∧
    (∀ a ∈ (CanvasEntityOpacity.onBlur (some ⟨"e1", "raster_layer"⟩) (some 250)).2,
      opacityInUnit a) :=
  dispatched_opacity_in_unit_interval ⟨"e1", "raster_layer"⟩ false 26
    (by norm_num) (by norm_num) 250

/-- Claim C6: none of the four modules mutates durable state directly:
each handler's entire effect on the outside world is the typed actions or
API requests it returns.  The log-level select emits only `logLevelChanged`
actions, the opacity handlers emit only `entityOpacityChanged` actions,
the add-entity buttons emit only add-entity actions, and the enqueue
listener emits only an `enqueueBatch` initiation followed by a reset of
that request handle. -/
theorem durable_state_only_via_typed_actions :
    (∀ (isLogLevel : Option String → Bool) (v : Option ComboOption),
      SettingsLogLevelSelect.onChange isLogLevel v = [] ∨
      ∃ l, SettingsLogLevelSelect.onChange isLogLevel v =
        [SystemAction.logLevelChanged l]) ∧
    (∀ (sel : Option EntityIdentifier) (shiftHeld : Bool) (opacity : ℚ),
      CanvasEntityOpacity.onChangeSlider sel shiftHeld opacity = [] ∨
      ∃ e o, CanvasEntityOpacity.onChangeSlider sel shiftHeld opacity =
        [CanvasV2Action.entityOpacityChanged e o]) ∧
    (∀ (sel : Option EntityIdentifier) (localOpacity : Option ℚ),
      (CanvasEntityOpacity.onBlur sel localOpacity).2 = [] ∨
      ∃ e o, (CanvasEntityOpacity.onBlur sel localOpacity).2 =
        [CanvasV2Action.entityOpacityChanged e o]) ∧
    (∀ (dca : ControlAdapterConfig) (dipa : IPAdapterConfig),
      ∀ a ∈ CanvasAddEntityButtons.addInpaintMask ++
          CanvasAddEntityButtons.addRegionalGuidance ++
          CanvasAddEntityButtons.addRasterLayer ++
          CanvasAddEntityButtons.addControlLayer dca ++
          CanvasAddEntityButtons.addIPAdapter dipa,
        isAddEntityAction a = true) ∧
    (∀ (N G W : Type) (bg : N → G) (bw : N → W) (state : AppState N)
        (action : AppAction),
      enqueueRequestedNodesListener bg bw state action = [] ∨
      ∃ cfg, enqueueRequestedNodesListener bg bw state action =
        [QueueStep.initiateEnqueueBatch cfg "enqueueBatch",
          QueueStep.requestHandleReset "enqueueBatch"]) := by
  refine ⟨?_, ?_, ?_, ?_, ?_⟩
  · intro isLogLevel v
    unfold SettingsLogLevelSelect.onChange
    split
    · cases v with
      | none => exact Or.inl rfl
      | some vv => exact Or.inr ⟨vv.value, rfl⟩
    · exact Or.inl rfl
  · intro sel shiftHeld opacity
    cases sel with
    | none => exact Or.inl rfl
    | some ident => exact Or.inr ⟨ident, _, rfl⟩
  · intro sel localOpacity
    cases sel with
    | none => exact Or.inl rfl
    | some ident =>
      cases localOpacity with
      | none => exact Or.inl rfl
      | some v => exact Or.inr ⟨ident, _, rfl⟩
  · intro dca dipa a ha
    simp only [CanvasAddEntityButtons.addInpaintMask,
      CanvasAddEntityButtons.addRegionalGuidance,
      CanvasAddEntityButtons.addRasterLayer,
      CanvasAddEntityButtons.addControlLayer,
      CanvasAddEntityButtons.addIPAdapter, List.append_assoc, List.mem_append,
      List.mem_singleton] at ha
    rcases ha with h | h | h | h | h <;> subst h <;> rfl
  · intro N G W bg bw state action
    cases action with
    | enqueueRequested p =>
      by_cases h : p.tabName = "nodes"
      · exact Or.inr ⟨⟨⟨bg state.nodes, bw state.nodes, state.generationIterations⟩,
          p.prepend⟩, by simp [enqueueRequestedNodesListener,
          enqueueRequestedNodesPredicate, h, enqueueRequestedNodesEffect]⟩
      · exact Or.inl (by simp [enqueueRequestedNodesListener,
          enqueueRequestedNodesPredicate, h])
    | other t => exact Or.inl rfl

/-- Witness for C6: the add-entity conjunct at the inpaint-mask action. -/
theorem durable_state_only_via_typed_actions_witness :
    isAddEntityAction CanvasV2Action.inpaintMaskAdded = true :=
  durable_state_only_via_typed_actions.2.2.2.1 ⟨"m"⟩ ⟨"m"⟩
    CanvasV2Action.inpaintMaskAdded (by simp [CanvasAddEntityButtons.addInpaintMask])
